import Mathlib

/-!
Shallow embedding of the quiz-taking session controller of the maths_story
repository. The controller lives in two variants of `QuizInterface.js`:
the primary one under `src/maths_story/frontend/src/pages/` and a legacy one
under `src/frontend/src/pages/`. The embedding covers quiz load from the
`currentQuiz` handoff slot, answer capture (`handleAnswerSubmit`), the
multiple-choice option click, and submission resolution (`submitQuiz`),
with the wall clock passed explicitly in milliseconds.
-/

/-- Drop leading whitespace characters from a character list. -/
def dropWhitespace : List Char → List Char
  | [] => []
  | c :: cs => if c.isWhitespace then dropWhitespace cs else c :: cs

/-- JS `String.prototype.trim` as applied to the answer input: whitespace is
removed from both ends. -/
def jsTrim (s : String) : String :=
  ⟨(dropWhitespace (dropWhitespace s.data).reverse).reverse⟩

/-- JS `String.prototype.charAt(0)`: the leading character as a one-character
string, or `""` when the string is empty. -/
def charAt0 (s : String) : String :=
  match s.data with
  | [] => ""
  | c :: _ => ⟨[c]⟩

/-- One quiz question as found in the stored `currentQuiz` payload.
`type` is `"mcq"` for multiple choice; `options`, `hint` and `story_context`
are optional fields of the JSON object. -/
structure Question where
  id : String
  type : String
  question : String
  options : Option (List String)
  hint : Option String
  story_context : Option String
deriving DecidableEq, Repr

/-- The quiz payload parsed from the `currentQuiz` handoff slot. A payload
whose `questions` field is absent or null is modelled as `StoredSlot.malformed`
below, so `questions` is always a (possibly empty) list here. -/
structure Quiz where
  subject : String
  topic : String
  mode : Option String
  questions : List Question
deriving DecidableEq, Repr

/-- One outbound answer record: `answerData` in the source. `time_taken` is
`(now - questionStartTime) / 1000` in seconds, modelled as a rational. -/
structure AnswerData where
  question_id : String
  user_answer : String
  time_taken : ℚ
  is_correct : Bool
deriving DecidableEq, Repr

/-- Body of the POST to `/quiz/submit`: `{ quiz_id, answers }`. -/
structure SubmitPayload where
  quiz_id : String
  answers : List AnswerData
deriving DecidableEq, Repr

/-- Component state of the maths_story `QuizInterface` once a quiz is loaded.
`quizId` comes from the route params; the remaining fields are the `useState`
hooks of the component. Timestamps are wall-clock milliseconds. -/
structure SessionState where
  quizId : String
  quiz : Quiz
  currentIndex : Nat
  answers : List AnswerData
  userAnswer : String
  startTime : Nat
  questionStartTime : Nat
  submitting : Bool
  showHint : Bool
deriving DecidableEq, Repr

/-- Externally visible effect of one `handleAnswerSubmit` call. `crash`
models the JS TypeError raised when `quiz.questions[currentIndex]` is
undefined (index out of range), which aborts the handler. -/
inductive Effect where
  | noEffect
  | toastError (msg : String)
  | crash
  | submitCall (payload : SubmitPayload)
deriving DecidableEq, Repr

/-- Contents of the `currentQuiz` handoff slot at load time: absent, a string
JSON.parse rejects (or an object without a `questions` list), or a parsed quiz. -/
inductive StoredSlot where
  | absent
  | malformed
  | parsed (q : Quiz)
deriving DecidableEq, Repr

/-- Outcome of the quiz-load effect: either a live session or a redirect to
`/quiz/select` with an error toast. -/
inductive InitResult where
  | loaded (s : SessionState)
  | redirect (toastMsg : String)
deriving DecidableEq, Repr

/-- Quiz-load effect of the maths_story variant (`useEffect`, lines 24-45):
missing slot and parse failure redirect with a toast; an empty `questions`
list redirects with "Quiz has no questions"; otherwise the session starts at
question 0 with empty answers and both clocks set to now. -/
def initSession (quizId : String) (now : Nat) (slot : StoredSlot) : InitResult :=
  match slot with
  | .absent => .redirect "Quiz not found"
  | .malformed => .redirect "Failed to load quiz"
  | .parsed q =>
    if q.questions.length = 0 then
      .redirect "Quiz has no questions"
    else
      .loaded
        { quizId := quizId
          quiz := q
          currentIndex := 0
          answers := []
          userAnswer := ""
          startTime := now
          questionStartTime := now
          submitting := false
          showHint := false }

/-- `handleAnswerSubmit` of the maths_story variant (lines 53-79): reject an
input that trims to empty with a toast and no state change; otherwise build
`answerData` for the current question, append it, clear the input and the
hint flag, then either advance to the next question (resetting the question
clock) or, on the final question, set `submitting` and issue the POST with
the full answer list. -/
def handleAnswerSubmit (now : Nat) (s : SessionState) : SessionState × Effect :=
  if jsTrim s.userAnswer = "" then
    (s, .toastError "Please provide an answer")
  else
    match s.quiz.questions[s.currentIndex]? with
    | none => (s, .crash)
    | some currentQuestion =>
      let timeTaken : ℚ := ((now : ℚ) - (s.questionStartTime : ℚ)) / 1000
      let answerData : AnswerData :=
        { question_id := currentQuestion.id
          user_answer := s.userAnswer
          time_taken := timeTaken
          is_correct := false }
      let s1 : SessionState :=
        { s with
            answers := s.answers ++ [answerData]
            userAnswer := ""
            showHint := false }
      if s.currentIndex < s.quiz.questions.length - 1 then
        ({ s1 with currentIndex := s.currentIndex + 1, questionStartTime := now },
          .noEffect)
      else
        ({ s1 with submitting := true },
          .submitCall { quiz_id := s.quizId, answers := s.answers ++ [answerData] })

/-- The spec operation `recordAnswer(rawInput)`: the user puts `input` into
the answer field (typing, or an option click) and activates submit. -/
def recordAnswer (input : String) (now : Nat) (s : SessionState) :
    SessionState × Effect :=
  handleAnswerSubmit now { s with userAnswer := input }

/-- Clicking a multiple-choice option (line 230 of the source):
`setUserAnswer(option.charAt(0))`. -/
def selectOption (opt : String) (s : SessionState) : SessionState :=
  { s with userAnswer := charAt0 opt }

/-- The server's response to `/quiz/submit`: an `id` used for navigation and
an opaque remainder. -/
structure ResultPayload where
  id : String
  body : String
deriving DecidableEq, Repr

/-- The sessionStorage slice the controller touches: the `currentQuiz` and
`quizResult` handoff slots, plus all other keys (untouched by it). -/
structure Storage where
  currentQuiz : Option Quiz
  quizResult : Option ResultPayload
  other : List (String × String)
deriving DecidableEq, Repr

/-- Resolution of the `api.post("/quiz/submit", ...)` promise. -/
inductive ApiResult where
  | ok (result : ResultPayload)
  | fail
deriving DecidableEq, Repr

/-- Everything `submitQuiz` leaves behind after the POST resolves. -/
structure ResolveOutcome where
  state : SessionState
  storage : Storage
  navigateTo : Option String
  toastMsg : Option String
deriving DecidableEq, Repr

/-- Continuation of `submitQuiz` (lines 81-98) after the POST resolves.
On success: store the response in `quizResult`, remove `currentQuiz`, and
navigate to `/results/{result.id}` (the `submitting` flag is never reset).
On failure: toast "Failed to submit quiz" and reset `submitting`; storage
and answers are untouched. -/
def resolveSubmit (s : SessionState) (store : Storage) (r : ApiResult) :
    ResolveOutcome :=
  match r with
  | .ok result =>
      { state := s
        storage := { store with quizResult := some result, currentQuiz := none }
        navigateTo := some ("/results/" ++ result.id)
        toastMsg := none }
  | .fail =>
      { state := { s with submitting := false }
        storage := store
        navigateTo := none
        toastMsg := some "Failed to submit quiz" }

/-- The payload a `submitQuiz` invocation sends when handed the session's
current answer list. -/
def submitPayload (s : SessionState) : SubmitPayload :=
  { quiz_id := s.quizId, answers := s.answers }

/-- Component state of the legacy `QuizInterface` variant under
`src/frontend/src/pages/`: identical hooks except that it has no
`showHint` state. -/
structure FESessionState where
  quizId : String
  quiz : Quiz
  currentIndex : Nat
  answers : List AnswerData
  userAnswer : String
  startTime : Nat
  questionStartTime : Nat
  submitting : Bool
deriving DecidableEq, Repr

/-- Outcome of the legacy variant's quiz-load effect. `crashed` models the
uncaught exception of `JSON.parse` (the legacy variant has no try/catch). -/
inductive FEInitResult where
  | loaded (s : FESessionState)
  | redirect (toastMsg : String)
  | crashed
deriving DecidableEq, Repr

/-- Quiz-load effect of the legacy variant (`useEffect`, lines 22-31): the
parsed payload is installed without any validation of `questions`. -/
def feInitSession (quizId : String) (now : Nat) (slot : StoredSlot) : FEInitResult :=
  match slot with
  | .absent => .redirect "Quiz not found"
  | .malformed => .crashed
  | .parsed q =>
      .loaded
        { quizId := quizId
          quiz := q
          currentIndex := 0
          answers := []
          userAnswer := ""
          startTime := now
          questionStartTime := now
          submitting := false }

/-- `handleAnswerSubmit` of the legacy variant (lines 39-64): identical to the
maths_story variant except that there is no hint flag to clear. -/
def feHandleAnswerSubmit (now : Nat) (s : FESessionState) : FESessionState × Effect :=
  if jsTrim s.userAnswer = "" then
    (s, .toastError "Please provide an answer")
  else
    match s.quiz.questions[s.currentIndex]? with
    | none => (s, .crash)
    | some currentQuestion =>
      let timeTaken : ℚ := ((now : ℚ) - (s.questionStartTime : ℚ)) / 1000
      let answerData : AnswerData :=
        { question_id := currentQuestion.id
          user_answer := s.userAnswer
          time_taken := timeTaken
          is_correct := false }
      let s1 : FESessionState :=
        { s with
            answers := s.answers ++ [answerData]
            userAnswer := "" }
      if s.currentIndex < s.quiz.questions.length - 1 then
        ({ s1 with currentIndex := s.currentIndex + 1, questionStartTime := now },
          .noEffect)
      else
        ({ s1 with submitting := true },
          .submitCall { quiz_id := s.quizId, answers := s.answers ++ [answerData] })

/-- `recordAnswer` against the legacy variant. -/
def feRecordAnswer (input : String) (now : Nat) (s : FESessionState) :
    FESessionState × Effect :=
  feHandleAnswerSubmit now { s with userAnswer := input }

/-- Everything the legacy `submitQuiz` leaves behind after the POST resolves. -/
structure FEResolveOutcome where
  state : FESessionState
  storage : Storage
  navigateTo : Option String
  toastMsg : Option String
deriving DecidableEq, Repr

/-- Continuation of the legacy `submitQuiz` (lines 66-83): textually the same
success and failure handling as the maths_story variant. -/
def feResolveSubmit (s : FESessionState) (store : Storage) (r : ApiResult) :
    FEResolveOutcome :=
  match r with
  | .ok result =>
      { state := s
        storage := { store with quizResult := some result, currentQuiz := none }
        navigateTo := some ("/results/" ++ result.id)
        toastMsg := none }
  | .fail =>
      { state := { s with submitting := false }
        storage := store
        navigateTo := none
        toastMsg := some "Failed to submit quiz" }

/-- Forget the maths_story variant's extra `showHint` field, exposing the
observable answer-capture state shared by both variants. -/
def eraseHint (s : SessionState) : FESessionState :=
  { quizId := s.quizId
    quiz := s.quiz
    currentIndex := s.currentIndex
    answers := s.answers
    userAnswer := s.userAnswer
    startTime := s.startTime
    questionStartTime := s.questionStartTime
    submitting := s.submitting }

/-- `eraseHint` applied to a resolution outcome. -/
def eraseOutcome (o : ResolveOutcome) : FEResolveOutcome :=
  { state := eraseHint o.state
    storage := o.storage
    navigateTo := o.navigateTo
    toastMsg := o.toastMsg }

/-- One event on a loaded maths_story session: a `recordAnswer` interaction
(only possible while the answering UI is shown, i.e. not submitting) or the
failure resolution of an in-flight submission. Successful resolution
navigates away and ends the session, so it is not a step. -/
inductive Step : SessionState → SessionState → Prop
  | answer (input : String) (now : Nat) (s s' : SessionState) (e : Effect) :
      s.submitting = false → recordAnswer input now s = (s', e) → Step s s'
  | submitFailed (s : SessionState) (store : Storage) :
      s.submitting = true → Step s (resolveSubmit s store .fail).state

/-- Session states reachable from a successful quiz load. -/
inductive Reachable : SessionState → Prop
  | load (quizId : String) (now : Nat) (slot : StoredSlot) (s : SessionState) :
      initSession quizId now slot = .loaded s → Reachable s
  | step (s s' : SessionState) : Reachable s → Step s s' → Reachable s'

/-- Session states reachable from a successful quiz load using only
`recordAnswer` interactions — i.e. before any failed submission attempt. -/
inductive ReachableNF : SessionState → Prop
  | load (quizId : String) (now : Nat) (slot : StoredSlot) (s : SessionState) :
      initSession quizId now slot = .loaded s → ReachableNF s
  | answer (input : String) (now : Nat) (s s' : SessionState) (e : Effect) :
      ReachableNF s → s.submitting = false →
      recordAnswer input now s = (s', e) → ReachableNF s'

/-- Run a list of `recordAnswer` interactions, each with its own clock
reading, collecting the emitted effects in order. -/
def runAnswers (s : SessionState) : List (String × Nat) → SessionState × List Effect
  | [] => (s, [])
  | (input, now) :: rest =>
      let p := recordAnswer input now s
      let r := runAnswers p.1 rest
      (r.1, p.2 :: r.2)

/-- Whether an effect is a submission call. -/
def isSubmitCall : Effect → Bool
  | .submitCall _ => true
  | _ => false

/-- Number of submission calls among a list of effects. -/
def countSubmit (es : List Effect) : Nat :=
  (es.filter isSubmitCall).length

/-- The answer record `handleAnswerSubmit` builds for question `q` when the
clock reads `now`. -/
def answerOf (now : Nat) (s : SessionState) (q : Question) : AnswerData :=
  { question_id := q.id
    user_answer := s.userAnswer
    time_taken := ((now : ℚ) - (s.questionStartTime : ℚ)) / 1000
    is_correct := false }

/-- Fixture: a two-question quiz, multiple choice then open answer. -/
def q1 : Question :=
  { id := "q1", type := "mcq", question := "Pick one"
    options := some ["A) x", "B) y"], hint := none, story_context := none }

/-- Fixture: an open-answer question. -/
def q2 : Question :=
  { id := "q2", type := "numeric", question := "Compute"
    options := none, hint := none, story_context := none }

/-- Fixture: the quiz of the mcq-then-open scenario. -/
def exQuiz : Quiz := { subject := "Math", topic := "Algebra", mode := none, questions := [q1, q2] }

/-- Fixture: a one-question quiz. -/
def oneQuiz : Quiz := { subject := "Math", topic := "Counting", mode := none, questions := [q2] }

/-- Fixture: a quiz whose questions list is empty. -/
def emptyQuiz : Quiz := { subject := "Math", topic := "Empty", mode := none, questions := [] }

/-- Fixture: storage holding `oneQuiz` in the quiz-material slot plus an
unrelated key. -/
def exStore : Storage :=
  { currentQuiz := some oneQuiz, quizResult := none, other := [("token", "t")] }

/-- Fixture: the session obtained by loading `exQuiz` at time 1000. -/
def exSession : SessionState :=
  { quizId := "quiz-1", quiz := exQuiz, currentIndex := 0, answers := []
    userAnswer := "", startTime := 1000, questionStartTime := 1000
    submitting := false, showHint := false }

/-- Fixture: the session obtained by loading `oneQuiz` at time 1000. -/
def oneSession : SessionState :=
  { quizId := "quiz-9", quiz := oneQuiz, currentIndex := 0, answers := []
    userAnswer := "", startTime := 1000, questionStartTime := 1000
    submitting := false, showHint := false }

/-- Fixture: the state after `oneSession`'s single question is answered at
time 2000 and the submission then fails. -/
def failedState : SessionState :=
  (resolveSubmit (recordAnswer "7" 2000 oneSession).1 exStore .fail).state

/-- Fixture: the state holding the one-question quiz's single recorded
answer with the submission in flight. -/
def oneSubmitted : SessionState := (recordAnswer "7" 2000 oneSession).1

/-- Fixture: the answer record of `oneSubmitted` — question `q2` answered
"7" one second (1000 ms) after it became current. -/
def oneAnswer : AnswerData := answerOf 2000 { oneSession with userAnswer := "7" } q2

/-- Fixture: the payload of `oneSubmitted`'s submission call. -/
def onePayload : SubmitPayload := { quiz_id := "quiz-9", answers := [oneAnswer] }

/-- Fixture: the first recorded answer of the mcq-then-open scenario —
option "A" on `q1`, two seconds elapsed. -/
def c3a1 : AnswerData :=
  { question_id := "q1", user_answer := "A", time_taken := 2, is_correct := false }

/-- Fixture: the second recorded answer — "42" on `q2`, three seconds
elapsed. -/
def c3a2 : AnswerData :=
  { question_id := "q2", user_answer := "42", time_taken := 3, is_correct := false }

/-- Fixture: the session after the scenario's first answer. -/
def c3Mid : SessionState :=
  { quizId := "quiz-1", quiz := exQuiz, currentIndex := 1, answers := [c3a1]
    userAnswer := "", startTime := 1000, questionStartTime := 3000
    submitting := false, showHint := false }

/-- Fixture: the session at the end of the scenario, submission in flight. -/
def c3End : SessionState :=
  { quizId := "quiz-1", quiz := exQuiz, currentIndex := 1, answers := [c3a1, c3a2]
    userAnswer := "", startTime := 1000, questionStartTime := 3000
    submitting := true, showHint := false }

/-- Fixture: the session state the legacy variant creates from the empty
quiz. -/
def feEmptySession : FESessionState :=
  { quizId := "qz", quiz := emptyQuiz, currentIndex := 0, answers := []
    userAnswer := "", startTime := 500, questionStartTime := 500
    submitting := false }

/-! ## Branch equations for the answer handler -/

theorem handleAnswerSubmit_empty (now : Nat) (s : SessionState)
    (h : jsTrim s.userAnswer = "") :
    handleAnswerSubmit now s = (s, .toastError "Please provide an answer") := by
  simp [handleAnswerSubmit, h]

theorem handleAnswerSubmit_nonfinal (now : Nat) (s : SessionState) (q : Question)
    (hne : ¬ jsTrim s.userAnswer = "")
    (hq : s.quiz.questions[s.currentIndex]? = some q)
    (hlt : s.currentIndex < s.quiz.questions.length - 1) :
    handleAnswerSubmit now s =
      ({ s with
          answers := s.answers ++ [answerOf now s q]
          userAnswer := ""
          showHint := false
          currentIndex := s.currentIndex + 1
          questionStartTime := now }, .noEffect) := by
  simp [handleAnswerSubmit, hne, hq, hlt, answerOf]

theorem handleAnswerSubmit_final (now : Nat) (s : SessionState) (q : Question)
    (hne : ¬ jsTrim s.userAnswer = "")
    (hq : s.quiz.questions[s.currentIndex]? = some q)
    (hge : ¬ s.currentIndex < s.quiz.questions.length - 1) :
    handleAnswerSubmit now s =
      ({ s with
          answers := s.answers ++ [answerOf now s q]
          userAnswer := ""
          showHint := false
          submitting := true },
        .submitCall { quiz_id := s.quizId, answers := s.answers ++ [answerOf now s q] }) := by
  simp [handleAnswerSubmit, hne, hq, hge, answerOf]

/-- Case analysis of one `handleAnswerSubmit` call: rejected with no state
change, accepted and advancing, or accepted and submitting. -/
theorem handleAnswerSubmit_shape (now : Nat) (s s' : SessionState) (e : Effect)
    (h : handleAnswerSubmit now s = (s', e)) :
    (s' = s ∧ (e = .toastError "Please provide an answer" ∨ e = .crash))
    ∨ (∃ a : AnswerData,
        s.currentIndex < s.quiz.questions.length - 1 ∧
        s' = { s with
                answers := s.answers ++ [a]
                userAnswer := ""
                showHint := false
                currentIndex := s.currentIndex + 1
                questionStartTime := now } ∧
        e = .noEffect)
    ∨ (∃ a : AnswerData,
        ¬ s.currentIndex < s.quiz.questions.length - 1 ∧
        s' = { s with
                answers := s.answers ++ [a]
                userAnswer := ""
                showHint := false
                submitting := true } ∧
        e = .submitCall { quiz_id := s.quizId, answers := s.answers ++ [a] }) := by
  by_cases hne : jsTrim s.userAnswer = ""
  · rw [handleAnswerSubmit_empty now s hne] at h
    cases h
    exact Or.inl ⟨rfl, Or.inl rfl⟩
  · cases hq : s.quiz.questions[s.currentIndex]? with
    | none =>
        simp [handleAnswerSubmit, hne, hq] at h
        exact Or.inl ⟨h.1.symm, Or.inr h.2.symm⟩
    | some q =>
        by_cases hlt : s.currentIndex < s.quiz.questions.length - 1
        · rw [handleAnswerSubmit_nonfinal now s q hne hq hlt] at h
          cases h
          exact Or.inr (Or.inl ⟨answerOf now s q, hlt, rfl, rfl⟩)
        · rw [handleAnswerSubmit_final now s q hne hq hlt] at h
          cases h
          exact Or.inr (Or.inr ⟨answerOf now s q, hlt, rfl, rfl⟩)

/-- A successful quiz load comes from a parsed payload with a non-empty
question list and yields the canonical fresh session. -/
theorem initSession_loaded (quizId : String) (now : Nat) (slot : StoredSlot)
    (s : SessionState) (h : initSession quizId now slot = .loaded s) :
    ∃ q : Quiz, slot = .parsed q ∧ q.questions.length ≠ 0 ∧
      s = { quizId := quizId, quiz := q, currentIndex := 0, answers := []
            userAnswer := "", startTime := now, questionStartTime := now
            submitting := false, showHint := false } := by
  cases slot with
  | absent => simp [initSession] at h
  | malformed => simp [initSession] at h
  | parsed q =>
      by_cases hq : q.questions.length = 0
      · simp [initSession, hq] at h
      · simp [initSession, hq] at h
        exact ⟨q, rfl, hq, h.symm⟩

/-! ## Bookkeeping invariants -/

/-- The number of recorded answers matches the current index while answering,
and is one ahead once the final submission is in flight — as long as no failed
submission has been resolved. -/
theorem reachableNF_answers_length (s : SessionState) (h : ReachableNF s) :
    s.answers.length = if s.submitting then s.currentIndex + 1 else s.currentIndex := by
  induction h with
  | load quizId now slot s h0 =>
      obtain ⟨q, _, _, hs⟩ := initSession_loaded quizId now slot s h0
      subst hs
      simp
  | answer input now s s' e _ hsub hrec ih =>
      rw [recordAnswer] at hrec
      rcases handleAnswerSubmit_shape now _ s' e hrec with
        ⟨hs', _⟩ | ⟨a, hlt, hs', _⟩ | ⟨a, hge, hs', _⟩
      · subst hs'
        simpa [hsub] using ih
      · subst hs'
        simp [hsub] at ih ⊢
        omega
      · subst hs'
        simp [hsub] at ih ⊢
        omega

/-- The current index never leaves the question range in any reachable state. -/
theorem reachable_currentIndex_lt (s : SessionState) (h : Reachable s) :
    s.currentIndex < s.quiz.questions.length := by
  induction h with
  | load quizId now slot s h0 =>
      obtain ⟨q, _, hq, hs⟩ := initSession_loaded quizId now slot s h0
      subst hs
      simpa using Nat.pos_of_ne_zero hq
  | step s s' _ hstep ih =>
      cases hstep with
      | answer input now s s' e hsub hrec =>
          rw [recordAnswer] at hrec
          rcases handleAnswerSubmit_shape now _ s' e hrec with
            ⟨hs', _⟩ | ⟨a, hlt, hs', _⟩ | ⟨a, hge, hs', _⟩
          · subst hs'
            simpa using ih
          · subst hs'
            simp at ih hlt ⊢
            omega
          · subst hs'
            simpa using ih
      | submitFailed s store hsub =>
          simpa [resolveSubmit] using ih

/-- No step of the controller ever moves the current index backwards. -/
theorem step_currentIndex_mono (s s' : SessionState) (h : Step s s') :
    s.currentIndex ≤ s'.currentIndex := by
  cases h with
  | answer input now s s' e hsub hrec =>
      rw [recordAnswer] at hrec
      rcases handleAnswerSubmit_shape now _ s' e hrec with
        ⟨hs', _⟩ | ⟨a, hlt, hs', _⟩ | ⟨a, hge, hs', _⟩ <;> subst hs' <;> simp
  | submitFailed s store hsub =>
      simp [resolveSubmit]

/-- An accepted answer to a non-final question advances the index by one. -/
theorem recordAnswer_advance (input : String) (now : Nat) (s s' : SessionState)
    (e : Effect) (hne : ¬ jsTrim input = "")
    (hlt : s.currentIndex < s.quiz.questions.length - 1)
    (hrec : recordAnswer input now s = (s', e)) :
    s'.currentIndex = s.currentIndex + 1 ∧ e = .noEffect := by
  have hidx : s.currentIndex < s.quiz.questions.length := by omega
  have hq : s.quiz.questions[s.currentIndex]? = some s.quiz.questions[s.currentIndex] :=
    List.getElem?_eq_getElem hidx
  rw [recordAnswer,
    handleAnswerSubmit_nonfinal now { s with userAnswer := input }
      s.quiz.questions[s.currentIndex] (by simpa using hne) (by simp [hq])
      (by simp; omega)] at hrec
  cases hrec
  exact ⟨rfl, rfl⟩

/-! ## Claim C1 -/

/-- C1: counterexample. A one-question quiz is loaded, its question answered,
and the submission fails. The resulting state is back in the answering UI
(`submitting = false`, i.e. Answering), yet it holds one answer record while
`currentIndex` is still 0, so `answers.length = currentIndex` is violated in
an Answering-status session. -/
theorem answering_invariant_fails_after_failed_submit :
    Reachable failedState ∧ failedState.submitting = false ∧
    failedState.answers.length = 1 ∧ failedState.currentIndex = 0 ∧
    failedState.answers.length ≠ failedState.currentIndex := by
  refine ⟨?_, by decide, by decide, by decide, by decide⟩
  have h1 : Reachable oneSession :=
    Reachable.load "quiz-9" 1000 (.parsed oneQuiz) oneSession (by decide)
  have h2 : Reachable (recordAnswer "7" 2000 oneSession).1 :=
    Reachable.step _ _ h1 (Step.answer "7" 2000 oneSession _ _ (by decide) rfl)
  exact Reachable.step _ _ h2 (Step.submitFailed _ exStore (by decide))

/-- C1 (amended): in every session that has seen no failed submission
attempt, `answers.length = currentIndex` holds whenever the session is in
the Answering status (`submitting = false`); a failed submission returns the
session to the answering UI with `answers.length = currentIndex + 1`. -/
theorem answers_length_eq_index_before_failure (s : SessionState)
    (h : ReachableNF s) (hsub : s.submitting = false) :
    s.answers.length = s.currentIndex := by
  have hlen := reachableNF_answers_length s h
  simpa [hsub] using hlen

/-- C1 (amended): witness. The invariant holds at the session reached by
loading the two-question quiz and answering its first question. -/
theorem answers_length_eq_index_before_failure_witness :
    (recordAnswer "A" 3000 exSession).1.answers.length =
      (recordAnswer "A" 3000 exSession).1.currentIndex :=
  answers_length_eq_index_before_failure _
    (ReachableNF.answer "A" 3000 exSession _ _
      (ReachableNF.load "quiz-1" 1000 (.parsed exQuiz) exSession (by decide))
      (by decide) rfl)
    (by decide)

/-! ## Claim C9 -/

/-- C9: in every reachable session the current index stays inside
`0 ≤ currentIndex < questions.length`, no step of the controller ever moves
it backwards, and an accepted (non-empty) answer to a non-final question
advances it by exactly one. -/
theorem currentIndex_bounds_and_mono :
    (∀ s : SessionState, Reachable s → s.currentIndex < s.quiz.questions.length)
    ∧ (∀ s s' : SessionState, Step s s' → s.currentIndex ≤ s'.currentIndex)
    ∧ (∀ (input : String) (now : Nat) (s s' : SessionState) (e : Effect),
        ¬ jsTrim input = "" → s.currentIndex < s.quiz.questions.length - 1 →
        recordAnswer input now s = (s', e) → s'.currentIndex = s.currentIndex + 1) :=
  ⟨reachable_currentIndex_lt, step_currentIndex_mono,
    fun input now s s' e hne hlt hrec =>
      (recordAnswer_advance input now s s' e hne hlt hrec).1⟩

/-- C9: witness at the two-question fixture: the loaded session is in range,
and answering its first question moves the index forward by exactly one. -/
theorem currentIndex_bounds_and_mono_witness :
    exSession.currentIndex < exSession.quiz.questions.length
    ∧ exSession.currentIndex ≤ (recordAnswer "A" 3000 exSession).1.currentIndex
    ∧ (recordAnswer "A" 3000 exSession).1.currentIndex = exSession.currentIndex + 1 :=
  ⟨currentIndex_bounds_and_mono.1 exSession
      (Reachable.load "quiz-1" 1000 (.parsed exQuiz) exSession (by decide)),
    currentIndex_bounds_and_mono.2.1 exSession _
      (Step.answer "A" 3000 exSession _ _ (by decide) rfl),
    currentIndex_bounds_and_mono.2.2 "A" 3000 exSession _ _ (by decide) (by decide) rfl⟩

/-! ## Claim C6 -/

/-- C6: a `recordAnswer` whose input trims to empty surfaces the validation
toast and leaves every session field — index, answers, clocks, submission
flag, hint flag, quiz — exactly as it was; in particular it never triggers a
submission. -/
theorem recordAnswer_empty_input_no_change (input : String) (now : Nat)
    (s : SessionState) (h : jsTrim input = "") :
    (recordAnswer input now s).1.quizId = s.quizId
    ∧ (recordAnswer input now s).1.quiz = s.quiz
    ∧ (recordAnswer input now s).1.currentIndex = s.currentIndex
    ∧ (recordAnswer input now s).1.answers = s.answers
    ∧ (recordAnswer input now s).1.startTime = s.startTime
    ∧ (recordAnswer input now s).1.questionStartTime = s.questionStartTime
    ∧ (recordAnswer input now s).1.submitting = s.submitting
    ∧ (recordAnswer input now s).1.showHint = s.showHint
    ∧ (recordAnswer input now s).2 = .toastError "Please provide an answer" := by
  have h2 : recordAnswer input now s =
      ({ s with userAnswer := input }, .toastError "Please provide an answer") := by
    rw [recordAnswer]
    exact handleAnswerSubmit_empty now _ h
  rw [h2]
  simp

/-- C6: witness at the inputs `""` and `"   "` on the two-question fixture. -/
theorem recordAnswer_empty_input_no_change_witness :
    (jsTrim "   " = "" ∧
      (recordAnswer "   " 3000 exSession).1.answers = exSession.answers ∧
      (recordAnswer "   " 3000 exSession).1.currentIndex = exSession.currentIndex ∧
      (recordAnswer "   " 3000 exSession).2 = .toastError "Please provide an answer")
    ∧ (jsTrim "" = "" ∧
      (recordAnswer "" 3000 exSession).1.answers = exSession.answers ∧
      (recordAnswer "" 3000 exSession).2 = .toastError "Please provide an answer") := by
  have h1 := recordAnswer_empty_input_no_change "   " 3000 exSession (by decide)
  have h2 := recordAnswer_empty_input_no_change "" 3000 exSession (by decide)
  exact ⟨⟨by decide, h1.2.2.2.1, h1.2.2.1, h1.2.2.2.2.2.2.2.2⟩,
    ⟨by decide, h2.2.2.2.1, h2.2.2.2.2.2.2.2.2⟩⟩

/-! ## Claim C7 -/

/-- C7: on a successful submission the quiz-material slot is cleared, the
result slot holds exactly the server's response, navigation to the results
view keyed by the returned result id is signalled, and nothing else — other
storage keys, the session state — is touched. -/
theorem submit_success_storage_effects (s : SessionState) (store : Storage)
    (result : ResultPayload) :
    (resolveSubmit s store (.ok result)).storage.currentQuiz = none
    ∧ (resolveSubmit s store (.ok result)).storage.quizResult = some result
    ∧ (resolveSubmit s store (.ok result)).storage.other = store.other
    ∧ (resolveSubmit s store (.ok result)).navigateTo = some ("/results/" ++ result.id)
    ∧ (resolveSubmit s store (.ok result)).state = s
    ∧ (resolveSubmit s store (.ok result)).toastMsg = none := by
  simp [resolveSubmit]

/-! ## Claim C8 -/

/-- C8: an accepted answer appends a record whose `time_taken` equals the
elapsed wall-clock seconds `(now - questionStartTime) / 1000` for the current
question, non-negative under a monotone clock; on an advance the question
clock is reset to `now`, so it again marks the next question becoming
current. -/
theorem time_taken_elapsed (now : Nat) (s : SessionState) (q : Question)
    (hne : ¬ jsTrim s.userAnswer = "")
    (hq : s.quiz.questions[s.currentIndex]? = some q)
    (hclock : s.questionStartTime ≤ now) :
    (handleAnswerSubmit now s).1.answers = s.answers ++ [answerOf now s q]
    ∧ (answerOf now s q).time_taken = ((now : ℚ) - (s.questionStartTime : ℚ)) / 1000
    ∧ 0 ≤ (answerOf now s q).time_taken
    ∧ (s.currentIndex < s.quiz.questions.length - 1 →
        (handleAnswerSubmit now s).1.questionStartTime = now) := by
  have h0 : (0 : ℚ) ≤ ((now : ℚ) - (s.questionStartTime : ℚ)) / 1000 :=
    div_nonneg (sub_nonneg.mpr (by exact_mod_cast hclock)) (by norm_num)
  by_cases hlt : s.currentIndex < s.quiz.questions.length - 1
  · rw [handleAnswerSubmit_nonfinal now s q hne hq hlt]
    exact ⟨rfl, rfl, h0, fun _ => rfl⟩
  · rw [handleAnswerSubmit_final now s q hne hq hlt]
    exact ⟨rfl, rfl, h0, fun h => absurd h hlt⟩

/-- C8: witness. Selecting option "A" at time 3000 on the session loaded at
time 1000 records two elapsed seconds, non-negative. -/
theorem time_taken_elapsed_witness :
    (handleAnswerSubmit 3000 (selectOption "A) x" exSession)).1.answers
      = (selectOption "A) x" exSession).answers
          ++ [answerOf 3000 (selectOption "A) x" exSession) q1]
    ∧ 0 ≤ (answerOf 3000 (selectOption "A) x" exSession) q1).time_taken
    ∧ (answerOf 3000 (selectOption "A) x" exSession) q1).time_taken = 2 := by
  have h := time_taken_elapsed 3000 (selectOption "A) x" exSession) q1
    (by decide) (by decide) (by decide)
  exact ⟨h.1, h.2.2.1, by norm_num [answerOf, selectOption, exSession]⟩

/-! ## Claim C4 -/

/-- C4: if the submission triggered by the final answer fails, the
quiz-material handoff slot is untouched (still populated), the answer
sequence is unchanged, and a renewed `submitQuiz` invocation on the session's
answers sends exactly the payload of the first attempt. -/
theorem submit_failure_retry (now : Nat) (s s' : SessionState) (p : SubmitPayload)
    (store : Storage) (q : Quiz)
    (hsub : handleAnswerSubmit now s = (s', .submitCall p))
    (hq : store.currentQuiz = some q) :
    (resolveSubmit s' store .fail).storage.currentQuiz = some q
    ∧ (resolveSubmit s' store .fail).storage = store
    ∧ (resolveSubmit s' store .fail).state.answers = s'.answers
    ∧ submitPayload (resolveSubmit s' store .fail).state = p
    ∧ (resolveSubmit s' store .fail).toastMsg = some "Failed to submit quiz" := by
  rcases handleAnswerSubmit_shape now s s' _ hsub with
    ⟨_, h | h⟩ | ⟨a, _, _, h⟩ | ⟨a, hge, hs', hp⟩
  · simp at h
  · simp at h
  · simp at h
  · simp only [Effect.submitCall.injEq] at hp
    subst hp
    subst hs'
    simp [resolveSubmit, submitPayload, hq]

/-- C4: witness on the one-question fixture with a populated quiz slot. -/
theorem submit_failure_retry_witness :
    (resolveSubmit oneSubmitted exStore .fail).storage.currentQuiz = some oneQuiz
    ∧ (resolveSubmit oneSubmitted exStore .fail).state.answers = oneSubmitted.answers
    ∧ submitPayload (resolveSubmit oneSubmitted exStore .fail).state = onePayload := by
  have hsub : handleAnswerSubmit 2000 { oneSession with userAnswer := "7" }
      = (oneSubmitted, .submitCall onePayload) := by
    rw [handleAnswerSubmit_final 2000 { oneSession with userAnswer := "7" } q2
      (by decide) (by decide) (by decide)]
    rfl
  have h := submit_failure_retry 2000 { oneSession with userAnswer := "7" }
      oneSubmitted onePayload exStore oneQuiz hsub (by decide)
  exact ⟨h.1, h.2.2.1, h.2.2.2.1⟩

/-! ## Claim C3 -/

/-- C3: on the two-question quiz [q1 mcq with options ["A) x","B) y"], q2
open], selecting option "A) x" (recording its leading label character "A")
and then answering "42" produces the answer records for q1 and q2 in that
order and exactly one submission call carrying both records. -/
theorem mcq_then_open_scenario :
    charAt0 "A) x" = "A"
    ∧ handleAnswerSubmit 3000 (selectOption "A) x" exSession) = (c3Mid, Effect.noEffect)
    ∧ recordAnswer "42" 6000 c3Mid
        = (c3End, .submitCall { quiz_id := "quiz-1", answers := [c3a1, c3a2] })
    ∧ c3End.answers = [c3a1, c3a2]
    ∧ countSubmit [Effect.noEffect,
        Effect.submitCall { quiz_id := "quiz-1", answers := [c3a1, c3a2] }] = 1 := by
  have e1 : answerOf 3000 (selectOption "A) x" exSession) q1 = c3a1 := by
    unfold answerOf c3a1
    congr 1
    all_goals first
      | rfl
      | decide
      | norm_num [selectOption, exSession]
  have e2 : answerOf 6000 { c3Mid with userAnswer := "42" } q2 = c3a2 := by
    unfold answerOf c3a2
    congr 1
    all_goals first
      | rfl
      | decide
      | norm_num [c3Mid]
  refine ⟨by decide, ?_, ?_, by decide, by decide⟩
  · rw [handleAnswerSubmit_nonfinal 3000 (selectOption "A) x" exSession) q1
      (by decide) (by decide) (by decide), e1]
    decide
  · rw [recordAnswer,
      handleAnswerSubmit_final 6000 { c3Mid with userAnswer := "42" } q2
        (by decide) (by decide) (by decide), e2]
    decide

/-! ## Claim C5 -/

/-- C5: counterexample. The legacy variant's quiz-load effect (equally cited
by the claim) performs no validation: initializing from a stored payload
whose questions list is empty redirects nowhere and creates a session state,
refuting "always fails ... and never produces a session". -/
theorem empty_quiz_loads_in_legacy_variant :
    feInitSession "qz" 500 (.parsed emptyQuiz) = .loaded feEmptySession := by
  decide

/-- C5 (amended): the maths_story variant's load always rejects an empty
questions list with the "Quiz has no questions" notice and a redirect to
quiz selection, creating no session; the legacy frontend variant lacks this
validation and installs the empty quiz as a session (whose rendering then
fails). -/
theorem empty_quiz_always_redirects (quizId : String) (now : Nat) (q : Quiz)
    (h : q.questions = []) :
    initSession quizId now (.parsed q) = .redirect "Quiz has no questions" := by
  simp [initSession, h]

/-- C5 (amended): witness at the concrete empty quiz. -/
theorem empty_quiz_always_redirects_witness :
    emptyQuiz.questions = [] ∧
    initSession "qz" 500 (.parsed emptyQuiz) = .redirect "Quiz has no questions" :=
  ⟨by decide, empty_quiz_always_redirects "qz" 500 emptyQuiz (by decide)⟩

/-! ## Claim C10 -/

/-- C10: the two controller variants are observationally equivalent on the
answer-capture and submission path: modulo the `showHint` presentation field
(forgotten by `eraseHint`), `handleAnswerSubmit`, `recordAnswer` and the
submission resolution of both variants produce identical states, effects,
payloads, storage updates, toasts and navigation. -/
theorem variants_observationally_equivalent :
    (∀ (now : Nat) (s : SessionState),
      feHandleAnswerSubmit now (eraseHint s)
        = (eraseHint (handleAnswerSubmit now s).1, (handleAnswerSubmit now s).2))
    ∧ (∀ (input : String) (now : Nat) (s : SessionState),
      feRecordAnswer input now (eraseHint s)
        = (eraseHint (recordAnswer input now s).1, (recordAnswer input now s).2))
    ∧ (∀ (s : SessionState) (store : Storage) (r : ApiResult),
      feResolveSubmit (eraseHint s) store r = eraseOutcome (resolveSubmit s store r)) := by
  have hmain : ∀ (now : Nat) (s : SessionState),
      feHandleAnswerSubmit now (eraseHint s)
        = (eraseHint (handleAnswerSubmit now s).1, (handleAnswerSubmit now s).2) := by
    intro now s
    by_cases hne : jsTrim s.userAnswer = ""
    · simp [feHandleAnswerSubmit, handleAnswerSubmit, eraseHint, hne]
    · cases hq : s.quiz.questions[s.currentIndex]? with
      | none => simp [feHandleAnswerSubmit, handleAnswerSubmit, eraseHint, hne, hq]
      | some q =>
          by_cases hlt : s.currentIndex < s.quiz.questions.length - 1 <;>
            simp [feHandleAnswerSubmit, handleAnswerSubmit, eraseHint, hne, hq, hlt]
  refine ⟨hmain, ?_, ?_⟩
  · intro input now s
    have h1 := hmain now { s with userAnswer := input }
    simpa [feRecordAnswer, recordAnswer, eraseHint] using h1
  · intro s store r
    cases r <;> simp [feResolveSubmit, resolveSubmit, eraseOutcome, eraseHint]

/-! ## Claim C2 -/

/-- Facts about an accepted answer to a non-final question, stated on
projections: no effect, one more answer, index advanced, submission flag
and quiz untouched. -/
theorem recordAnswer_nonfinal_facts (input : String) (now : Nat) (s : SessionState)
    (hne : ¬ jsTrim input = "")
    (hlt : s.currentIndex < s.quiz.questions.length - 1) :
    (recordAnswer input now s).2 = Effect.noEffect
    ∧ (recordAnswer input now s).1.answers.length = s.answers.length + 1
    ∧ (recordAnswer input now s).1.currentIndex = s.currentIndex + 1
    ∧ (recordAnswer input now s).1.submitting = s.submitting
    ∧ (recordAnswer input now s).1.quiz = s.quiz := by
  have hidx : s.currentIndex < s.quiz.questions.length := by omega
  have hq : s.quiz.questions[s.currentIndex]? = some s.quiz.questions[s.currentIndex] :=
    List.getElem?_eq_getElem hidx
  rw [recordAnswer, handleAnswerSubmit_nonfinal now { s with userAnswer := input }
    s.quiz.questions[s.currentIndex] (by simpa using hne) (by simp [hq])
    (by simp; omega)]
  simp

/-- Facts about an accepted answer to the final question, stated on
projections: the emitted effect is the submission call carrying the updated
answer list, the index stays, and the submission flag is raised. -/
theorem recordAnswer_final_facts (input : String) (now : Nat) (s : SessionState)
    (hne : ¬ jsTrim input = "")
    (hidx : s.currentIndex < s.quiz.questions.length)
    (hge : ¬ s.currentIndex < s.quiz.questions.length - 1) :
    (recordAnswer input now s).2
        = Effect.submitCall
            { quiz_id := s.quizId, answers := (recordAnswer input now s).1.answers }
    ∧ (recordAnswer input now s).1.answers.length = s.answers.length + 1
    ∧ (recordAnswer input now s).1.currentIndex = s.currentIndex
    ∧ (recordAnswer input now s).1.submitting = true
    ∧ (recordAnswer input now s).1.quiz = s.quiz := by
  have hq : s.quiz.questions[s.currentIndex]? = some s.quiz.questions[s.currentIndex] :=
    List.getElem?_eq_getElem hidx
  rw [recordAnswer, handleAnswerSubmit_final now { s with userAnswer := input }
    s.quiz.questions[s.currentIndex] (by simpa using hne) (by simp [hq])
    (by simp; omega)]
  simp


/-- Core run lemma: starting from an in-sync answering state, a run of
non-empty inputs that does not exceed the question count emits a submission
call exactly when it exhausts the questions, raises the submission flag at
that same moment, and every emitted submission call carries the full answer
list. -/
theorem runAnswers_submit_count (inputs : List (String × Nat)) :
    ∀ s : SessionState,
      s.answers.length = s.currentIndex →
      s.submitting = false →
      (∀ p ∈ inputs, ¬ jsTrim p.1 = "") →
      s.currentIndex + inputs.length ≤ s.quiz.questions.length →
      countSubmit (runAnswers s inputs).2
          = (if s.currentIndex + inputs.length = s.quiz.questions.length ∧ inputs ≠ []
              then 1 else 0)
      ∧ ((runAnswers s inputs).1.submitting = true
          ↔ (s.currentIndex + inputs.length = s.quiz.questions.length ∧ inputs ≠ []))
      ∧ (∀ p : SubmitPayload, Effect.submitCall p ∈ (runAnswers s inputs).2 →
          p.answers.length = s.quiz.questions.length) := by
  induction inputs with
  | nil =>
      intro s hinv hsub _ _
      simp [runAnswers, countSubmit, hsub]
  | cons head rest ih =>
      obtain ⟨input, now⟩ := head
      intro s hinv hsub hne hlen
      simp only [List.length_cons] at hlen ⊢
      have hidx : s.currentIndex < s.quiz.questions.length := by omega
      have hne0 : ¬ jsTrim input = "" := hne (input, now) (by simp)
      have hrun1 : (runAnswers s ((input, now) :: rest)).1
          = (runAnswers (recordAnswer input now s).1 rest).1 := by
        simp [runAnswers]
      have hrun2 : (runAnswers s ((input, now) :: rest)).2
          = (recordAnswer input now s).2
              :: (runAnswers (recordAnswer input now s).1 rest).2 := by
        simp [runAnswers]
      by_cases hlt : s.currentIndex < s.quiz.questions.length - 1
      · obtain ⟨heff, hlen1, hidx1, hsub1, hquiz1⟩ :=
          recordAnswer_nonfinal_facts input now s hne0 hlt
        have hinv1 : (recordAnswer input now s).1.answers.length
            = (recordAnswer input now s).1.currentIndex := by
          rw [hlen1, hidx1, hinv]
        have hsub1f : (recordAnswer input now s).1.submitting = false := by
          rw [hsub1, hsub]
        have hne1 : ∀ p ∈ rest, ¬ jsTrim p.1 = "" :=
          fun p hp => hne p (List.mem_cons_of_mem _ hp)
        have hlen1f : (recordAnswer input now s).1.currentIndex + rest.length
            ≤ (recordAnswer input now s).1.quiz.questions.length := by
          rw [hidx1, hquiz1]
          omega
        obtain ⟨hcount, hflag, hpay⟩ :=
          ih (recordAnswer input now s).1 hinv1 hsub1f hne1 hlen1f
        simp only [hidx1, hquiz1] at hcount hflag hpay
        have hcond : (s.currentIndex + 1 + rest.length = s.quiz.questions.length
              ∧ rest ≠ [])
            ↔ (s.currentIndex + (rest.length + 1) = s.quiz.questions.length
              ∧ (input, now) :: rest ≠ ([] : List (String × Nat))) := by
          constructor
          · rintro ⟨h1, _⟩
            exact ⟨by omega, by simp⟩
          · rintro ⟨h1, _⟩
            refine ⟨by omega, ?_⟩
            intro hnil
            subst hnil
            simp only [List.length_nil] at h1
            omega
        refine ⟨?_, ?_, ?_⟩
        · rw [hrun2, heff]
          have hskip : countSubmit (Effect.noEffect
              :: (runAnswers (recordAnswer input now s).1 rest).2)
              = countSubmit (runAnswers (recordAnswer input now s).1 rest).2 := by
            simp [countSubmit, isSubmitCall]
          rw [hskip, hcount]
          by_cases hc : s.currentIndex + 1 + rest.length = s.quiz.questions.length
              ∧ rest ≠ []
          · rw [if_pos hc, if_pos (hcond.mp hc)]
          · rw [if_neg hc, if_neg fun h => hc (hcond.mpr h)]
        · rw [hrun1]
          exact hflag.trans hcond
        · intro p hp
          rw [hrun2] at hp
          rcases List.mem_cons.mp hp with hp1 | hp2
          · rw [heff] at hp1
            cases hp1
          · exact hpay p hp2
      · have hidxeq : s.currentIndex = s.quiz.questions.length - 1 := by omega
        have hrest : rest = [] := by
          cases rest with
          | nil => rfl
          | cons r rs =>
              exfalso
              simp only [List.length_cons] at hlen
              omega
        subst hrest
        obtain ⟨heff, hlen1, hidx1, hsub1, hquiz1⟩ :=
          recordAnswer_final_facts input now s hne0 hidx hlt
        refine ⟨?_, ?_, ?_⟩
        · rw [hrun2, heff]
          rw [if_pos ⟨by simp only [List.length_nil]; omega, by simp⟩]
          simp [runAnswers, countSubmit, isSubmitCall]
        · rw [hrun1]
          simp only [runAnswers]
          rw [hsub1]
          simp only [true_iff]
          exact ⟨by simp only [List.length_nil]; omega, by simp⟩
        · intro p hp
          rw [hrun2, heff] at hp
          simp only [runAnswers, List.mem_cons, List.not_mem_nil, or_false,
            Effect.submitCall.injEq] at hp
          subst hp
          simp only [hlen1, hinv]
          omega

/-- C2: from a freshly loaded session with n questions (n ≥ 1), a run of at
most n `recordAnswer` calls with non-empty input transitions to Submitting
and emits exactly one submission call precisely when the run has length n;
any strictly shorter run never submits; and every emitted submission call
carries exactly n answer records (`answers.length` has reached
`questions.length`). -/
theorem exactly_n_answers_trigger_submission (quizId : String) (now : Nat)
    (slot : StoredSlot) (s0 : SessionState) (inputs : List (String × Nat))
    (hload : initSession quizId now slot = .loaded s0)
    (hne : ∀ p ∈ inputs, ¬ jsTrim p.1 = "")
    (hlen : inputs.length ≤ s0.quiz.questions.length) :
    countSubmit (runAnswers s0 inputs).2
        = (if inputs.length = s0.quiz.questions.length then 1 else 0)
    ∧ ((runAnswers s0 inputs).1.submitting = true
        ↔ inputs.length = s0.quiz.questions.length)
    ∧ (∀ p : SubmitPayload, Effect.submitCall p ∈ (runAnswers s0 inputs).2 →
        p.answers.length = s0.quiz.questions.length) := by
  obtain ⟨q, hslot, hq0, hs0⟩ := initSession_loaded quizId now slot s0 hload
  have hinv : s0.answers.length = s0.currentIndex := by rw [hs0]; simp
  have hsub : s0.submitting = false := by rw [hs0]
  have hidx0 : s0.currentIndex = 0 := by rw [hs0]
  have hn0 : s0.quiz.questions.length ≠ 0 := by rw [hs0]; simpa using hq0
  obtain ⟨hcount, hflag, hpay⟩ :=
    runAnswers_submit_count inputs s0 hinv hsub hne (by omega)
  have hcond : (s0.currentIndex + inputs.length = s0.quiz.questions.length
        ∧ inputs ≠ [])
      ↔ inputs.length = s0.quiz.questions.length := by
    constructor
    · rintro ⟨h1, _⟩
      omega
    · intro h1
      refine ⟨by omega, ?_⟩
      intro hnil
      subst hnil
      simp only [List.length_nil] at h1
      omega
  refine ⟨?_, hflag.trans hcond, hpay⟩
  rw [hcount]
  by_cases hc : inputs.length = s0.quiz.questions.length
  · rw [if_pos (hcond.mpr hc), if_pos hc]
  · rw [if_neg fun h => hc (hcond.mp h), if_neg hc]

/-- C2: witness — on the loaded two-question fixture, two non-empty answers
submit exactly once, while a single answer never submits. -/
theorem exactly_n_answers_trigger_submission_witness :
    countSubmit (runAnswers exSession [("A", 3000), ("42", 6000)]).2 = 1
    ∧ countSubmit (runAnswers exSession [("A", 3000)]).2 = 0 := by
  have h2 := exactly_n_answers_trigger_submission "quiz-1" 1000 (.parsed exQuiz)
      exSession [("A", 3000), ("42", 6000)] (by decide) (by decide) (by decide)
  have h1 := exactly_n_answers_trigger_submission "quiz-1" 1000 (.parsed exQuiz)
      exSession [("A", 3000)] (by decide) (by decide) (by decide)
  exact ⟨h2.1.trans (by decide), h1.1.trans (by decide)⟩
